import Mathlib

/-!
Verification of the process-output streaming core of `src/main.py`
(`kivy_cline_test`).

The embedding models, at line/character granularity:

* `strip`        — Python `str.strip()` restricted to ASCII whitespace,
  used by the drain loop (`line.strip()`).
* `splitlines`   — Python `str.splitlines()` restricted to `\n` separators,
  used by the final reconciliation (`stdout.splitlines()`).
* `Run`          — the abstract state of one learning-mode run: the target
  path, the `output_lines` list, the text of its result label (the published
  snapshot), the spec-level state `Running / Completed / Failed`, and whether
  its `Clock.schedule_interval` tick is still registered.
* `update_label` — the body of the inner `update_label(dt)` callback
  (src/main.py lines 127-154): it first drains available stdout lines,
  appending each `line.strip()` to `output_lines` unconditionally, then
  polls the process; while alive it republishes the running snapshot and
  keeps the tick, on exit it either publishes the stderr error snapshot
  (non-empty stderr) or merges the remaining stdout with de-duplication
  and publishes the final snapshot, returning False (tick deregistered).
* `run_ls_command` — the setup path (lines 107-163): on a successful spawn
  the run starts `Running` with the tick scheduled; if the spawn raises,
  a single error snapshot is published and no tick is ever scheduled.
* `clear_items`  — lines 168-174: `content_box.clear_widgets()` removes
  the widgets from the content area; it does not touch the Clock.
* `main_widget_on_drop` — lines 192-222: dispatch of a dropped path by
  mode and directory-ness, with the file system passed in explicitly
  (`isDir` for the dropped path, `entries` as `(name, isFile)` pairs for
  its listing).
-/

/-- Python `str.strip()` on ASCII whitespace: drop whitespace characters
from both ends of the string. -/
def strip (s : String) : String :=
  String.mk (((s.data.dropWhile Char.isWhitespace).reverse.dropWhile
    Char.isWhitespace).reverse)

/-- Helper for `splitlines`: split a character list at every newline
character; a trailing newline does not produce a final empty line,
matching Python `str.splitlines()`. -/
def splitlinesAux (cur : List Char) : List Char → List (List Char)
  | [] => if cur = [] then [] else [cur]
  | c :: rest =>
      if c = '\n' then cur :: splitlinesAux [] rest
      else splitlinesAux (cur ++ [c]) rest

/-- Python `str.splitlines()` restricted to `\n` separators, as applied to
the text-mode `stdout` returned by `process.communicate()`. -/
def splitlines (s : String) : List String :=
  (splitlinesAux [] s.data).map String.mk

/-- Python `"\n".join(output_lines)`. -/
def joinLines : List String → String
  | [] => ""
  | [l] => l
  | l :: ls => l ++ "\n" ++ joinLines ls

/-- The spec-level state of a run: `Running → {Completed, Failed}`. -/
inductive RunState : Type
  | running
  | completed
  | failed
deriving DecidableEq

/-- Result of `process.poll()` / `process.communicate()` as seen by one
tick: either the process is still alive, or it has exited and
`communicate()` returns the remaining (unread) stdout text and the stderr
text. -/
inductive PollStatus : Type
  | alive
  | exited (remainingStdout : String) (stderr : String)

/-- One learning-mode run: the dropped folder path, the `output_lines`
list, the current text of its result label (the published snapshot), the
abstract state, and whether the repeating tick is registered with the
Clock. -/
structure Run : Type where
  target : String
  outputLines : List String
  labelText : String
  state : RunState
  scheduled : Bool
deriving DecidableEq

/-- The final-reconciliation loop of `update_label` (src/main.py lines
150-152): for each line of the remaining stdout, append `line.strip()`
only if it is non-empty and not already present in `output_lines`. -/
def appendFinalLines (acc : List String) (ls : List String) : List String :=
  ls.foldl
    (fun a line =>
      if strip line ≠ "" ∧ strip line ∉ a then a ++ [strip line] else a)
    acc

/-- The body of the `update_label(dt)` tick callback (src/main.py lines
127-154), parameterised by the lines the non-blocking drain loop reads
this tick and by the process status observed after the drain. The drain
appends `line.strip()` for every drained line, with no membership check.
Returning `True` in the source keeps the interval scheduled; returning
`False` deregisters it, which the model records in `scheduled`. -/
def update_label (r : Run) (drained : List String) (status : PollStatus) :
    Run :=
  let ls := r.outputLines ++ drained.map strip
  match status with
  | PollStatus.alive =>
      { r with
        outputLines := ls
        labelText := "[" ++ r.target ++ "]\n実行中...\n" ++ joinLines ls
        state := RunState.running
        scheduled := true }
  | PollStatus.exited stdout stderr =>
      if stderr ≠ "" then
        { r with
          outputLines := ls
          labelText := "[" ++ r.target ++ "]\nエラー: " ++ stderr
          state := RunState.failed
          scheduled := false }
      else
        let ls2 := appendFinalLines ls (splitlines stdout)
        { r with
          outputLines := ls2
          labelText := "[" ++ r.target ++ "]\n" ++ joinLines ls2
          state := RunState.completed
          scheduled := false }

/-- A Clock tick only runs the callback of a run whose interval is still
registered; a run whose callback returned `False` (or was never
scheduled) is left untouched. -/
def tickIfScheduled (r : Run) (drained : List String) (status : PollStatus) :
    Run :=
  if r.scheduled then update_label r drained status else r

/-- The setup path of one run (src/main.py lines 93-163): the label is
created showing `"[folder]\n実行中..."`, then `run_ls_command` spawns the
process and schedules the repeating tick; if the spawn raises
(`spawnError = some err`), the `except` branch publishes a single error
snapshot via `Clock.schedule_once` and no repeating tick is ever
scheduled. -/
def run_ls_command (folder : String) (spawnError : Option String) : Run :=
  match spawnError with
  | none =>
      { target := folder
        outputLines := []
        labelText := "[" ++ folder ++ "]\n実行中..."
        state := RunState.running
        scheduled := true }
  | some err =>
      { target := folder
        outputLines := []
        labelText := "[" ++ folder ++ "]\nエラー: " ++ err
        state := RunState.failed
        scheduled := false }

/-- A sequence of ticks observed while the process stays alive, each
delivering one chunk of drained lines. -/
def drainTicks (r : Run) (chunks : List (List String)) : Run :=
  chunks.foldl (fun a c => update_label a c PollStatus.alive) r

/-- Concatenation of the drained chunks, in tick order. -/
def flattenChunks : List (List String) → List String
  | [] => []
  | c :: cs => c ++ flattenChunks cs

/-- One learning-mode row as the main widget sees it: its run together
with whether its result label is still a child of `content_box`. -/
structure LearningItem : Type where
  run : Run
  inContentBox : Bool
deriving DecidableEq

/-- `MainWidget.clear_items` (src/main.py lines 168-174): it calls
`content_box.clear_widgets()`, removing every row from the content area.
It does not touch the Clock, so each run itself — including its
`scheduled` flag — is left unchanged. -/
def clear_items (items : List LearningItem) : List LearningItem :=
  items.map (fun it => { it with inContentBox := false })

namespace Mode

/-- `Mode.LEARNING` (src/main.py line 17). -/
def LEARNING : String := "learning"

/-- `Mode.CLASSIFICATION` (src/main.py line 18). -/
def CLASSIFICATION : String := "classification"

end Mode

/-- A row added to `content_box` by the drop handler. -/
inductive UIItem : Type
  | classificationItem (path : String)
  | learningRun (folder : String)
  | messageLabel (text : String)
deriving DecidableEq

/-- `os.path.join(file_path, entry)` for a relative entry name. -/
def joinPath (dir entry : String) : String := dir ++ "/" ++ entry

/-- `main_widget_on_drop` (src/main.py lines 192-222), with the file
system passed explicitly: `isDir` is `os.path.isdir(file_path)` and
`entries` is `os.listdir(file_path)` in listing order, each paired with
its `os.path.isfile(full_path)` result. Returns the rows added to
`content_box` by this drop. -/
def main_widget_on_drop (mode : String) (isDir : Bool)
    (entries : List (String × Bool)) (path : String) : List UIItem :=
  if isDir then
    if mode = Mode.LEARNING then [UIItem.learningRun path]
    else
      entries.foldl
        (fun acc e =>
          if e.2 then acc ++ [UIItem.classificationItem (joinPath path e.1)]
          else acc)
        []
  else
    if mode = Mode.CLASSIFICATION then [UIItem.classificationItem path]
    else if mode = Mode.LEARNING then
      [UIItem.messageLabel "学習モードではディレクトリを指定してください"]
    else []

example : splitlines "a\nb\nc\n" = ["a", "b", "c"] := by decide

example : splitlines "" = [] := by decide

example : splitlines "a\n\nb" = ["a", "", "b"] := by decide

example : strip "  x \n" = "x" := by decide

example :
    (update_label (run_ls_command "/dir" none) []
      (PollStatus.exited "a\nb\nc\n" "")).outputLines = ["a", "b", "c"] := by
  decide

theorem update_label_alive_outputLines (r : Run) (d : List String) :
    (update_label r d PollStatus.alive).outputLines
      = r.outputLines ++ d.map strip := rfl

theorem drainTicks_outputLines (chunks : List (List String)) :
    ∀ r : Run, (drainTicks r chunks).outputLines
      = r.outputLines ++ (flattenChunks chunks).map strip := by
  induction chunks with
  | nil =>
      intro r
      simp [drainTicks, flattenChunks]
  | cons c cs ih =>
      intro r
      have h1 : drainTicks r (c :: cs)
          = drainTicks (update_label r c PollStatus.alive) cs := rfl
      rw [h1, ih, update_label_alive_outputLines]
      simp [flattenChunks, List.append_assoc]

theorem appendFinalLines_nil (acc : List String) :
    appendFinalLines acc [] = acc := rfl

theorem appendFinalLines_cons (acc : List String) (l : String)
    (ls : List String) :
    appendFinalLines acc (l :: ls)
      = appendFinalLines
          (if strip l ≠ "" ∧ strip l ∉ acc then acc ++ [strip l] else acc)
          ls := rfl

theorem appendFinalLines_extends (ls : List String) :
    ∀ acc : List String, ∃ t : List String,
      appendFinalLines acc ls = acc ++ t ∧ t.Nodup ∧ ∀ x ∈ t, x ∉ acc := by
  induction ls with
  | nil =>
      intro acc
      exact ⟨[], by simp [appendFinalLines_nil], List.nodup_nil, by simp⟩
  | cons l ls ih =>
      intro acc
      rw [appendFinalLines_cons]
      by_cases h : strip l ≠ "" ∧ strip l ∉ acc
      · rw [if_pos h]
        obtain ⟨t, ht, hnd, hna⟩ := ih (acc ++ [strip l])
        refine ⟨strip l :: t, ?_, ?_, ?_⟩
        · rw [ht]
          simp [List.append_assoc]
        · refine List.nodup_cons.mpr ⟨?_, hnd⟩
          intro hmem
          exact hna _ hmem (by simp)
        · intro x hx
          rcases List.mem_cons.mp hx with hx | hx
          · subst hx
            exact h.2
          · intro hxa
            exact hna x hx (List.mem_append_left _ hxa)
      · rw [if_neg h]
        exact ih acc

theorem appendFinalLines_of_nodup (ls : List String) :
    ∀ acc : List String, (∀ x ∈ ls, strip x ≠ "") →
      (acc ++ ls.map strip).Nodup →
      appendFinalLines acc ls = acc ++ ls.map strip := by
  induction ls with
  | nil =>
      intro acc _ _
      simp [appendFinalLines_nil]
  | cons l ls ih =>
      intro acc hne hnd
      have hstrip : strip l ≠ "" := hne l (List.mem_cons_self l ls)
      have hnotmem : strip l ∉ acc := by
        have hd := (List.nodup_append.mp hnd).2.2
        intro hmem
        exact hd hmem (by simp)
      rw [appendFinalLines_cons, if_pos ⟨hstrip, hnotmem⟩]
      have hnd2 : ((acc ++ [strip l]) ++ ls.map strip).Nodup := by
        rw [List.append_assoc]
        simpa using hnd
      rw [ih (acc ++ [strip l]) (fun x hx => hne x (List.mem_cons_of_mem _ hx))
        hnd2]
      simp [List.append_assoc]

theorem tickIfScheduled_of_unscheduled (r : Run) (d : List String)
    (s : PollStatus) (h : r.scheduled = false) :
    tickIfScheduled r d s = r := by
  simp [tickIfScheduled, h]

theorem foldl_tickIfScheduled_of_unscheduled
    (ticks : List (List String × PollStatus)) :
    ∀ r : Run, r.scheduled = false →
      ticks.foldl (fun a p => tickIfScheduled a p.1 p.2) r = r := by
  induction ticks with
  | nil =>
      intro r _
      rfl
  | cons p ps ih =>
      intro r h
      rw [List.foldl_cons, tickIfScheduled_of_unscheduled r p.1 p.2 h]
      exact ih r h

theorem update_label_terminal_unscheduled (r : Run) (d : List String)
    (s : PollStatus) (h : (update_label r d s).state ≠ RunState.running) :
    (update_label r d s).scheduled = false := by
  cases s with
  | alive => exact absurd rfl h
  | exited stdout stderr =>
      by_cases hs : stderr = ""
      · simp [update_label, hs]
      · simp [update_label, hs]

theorem update_label_exited_ok (r : Run) (d : List String) (stdout : String) :
    (update_label r d (PollStatus.exited stdout "")).outputLines
        = appendFinalLines (r.outputLines ++ d.map strip) (splitlines stdout)
      ∧ (update_label r d (PollStatus.exited stdout "")).state
        = RunState.completed := by
  simp [update_label]

/-- C1: the claim that `clear_items` while a run is Running immediately
deregisters the repeating tick and stops snapshot publication is false:
`clear_items` only removes the widgets from the content area, the run's
`scheduled` flag stays `true`, and a later tick — while alive or at
process exit — still changes the published label text. -/
theorem C1_claim_counterexample :
    clear_items [⟨run_ls_command "/data" none, true⟩]
        = [⟨run_ls_command "/data" none, false⟩] ∧
    (run_ls_command "/data" none).scheduled = true ∧
    (tickIfScheduled (run_ls_command "/data" none) ["total 0\n"]
        PollStatus.alive).labelText
      ≠ (run_ls_command "/data" none).labelText ∧
    (tickIfScheduled (run_ls_command "/data" none) []
        (PollStatus.exited "total 0\n" "")).labelText
      ≠ (run_ls_command "/data" none).labelText := by
  decide

/-- C1 (amended): `clear_items` removes every row from the content area
but leaves each run — its lines, its state, and in particular its
`scheduled` tick registration — completely unchanged; ticks keep firing
on the detached label until the process exits. -/
theorem C1_amended_clear_leaves_tick (items : List LearningItem) :
    (clear_items items).map (fun it => it.run)
        = items.map (fun it => it.run) ∧
    (clear_items items).all (fun it => !it.inContentBox) = true := by
  constructor
  · simp [clear_items]
  · simp [clear_items]

/-- C2: the claim that de-duplication holds on every append is false:
the incremental drain loop appends each drained `line.strip()` with no
membership check, so a line already present is appended again. -/
theorem C2_claim_counterexample :
    (update_label (run_ls_command "/d" none) ["x\n", "x\n"]
        PollStatus.alive).outputLines = ["x", "x"] := by
  decide

/-- C2 (amended): incremental drains while Running append every drained
line (trimmed) unconditionally, in discovery order, with no
de-duplication; the exact-string de-duplication happens only in the final
reconciliation, which never appends a line already present in the
sequence and appends no duplicates of its own. -/
theorem C2_amended_dedup_only_at_reconcile :
    (∀ (r : Run) (d : List String),
        (update_label r d PollStatus.alive).outputLines
          = r.outputLines ++ d.map strip) ∧
    (∀ acc ls : List String, ∃ t : List String,
        appendFinalLines acc ls = acc ++ t ∧ t.Nodup ∧ ∀ x ∈ t, x ∉ acc) :=
  ⟨fun r d => update_label_alive_outputLines r d,
   fun acc ls => appendFinalLines_extends ls acc⟩

/-- C3: the claim that the final `lines` is duplicate-free and identical
for every chunking of the same full stdout is false: for full stdout
`"a\na\n"`, draining both lines incrementally yields `["a", "a"]` after
reconciliation, while delivering everything at reconciliation yields
`["a"]`. -/
theorem C3_claim_counterexample :
    (update_label (update_label (run_ls_command "/d" none) ["a\n", "a\n"]
        PollStatus.alive) [] (PollStatus.exited "" "")).outputLines
      = ["a", "a"] ∧
    (update_label (run_ls_command "/d" none) []
        (PollStatus.exited "a\na\n" "")).outputLines = ["a"] := by
  decide

/-- C3 (amended): provided the lines of the full stdout have pairwise
distinct and non-empty stripped content, the final `lines` after
reconciliation is exactly the stripped lines of the full stdout in order
— each exactly once — for every way the stream is chunked across
incremental drains, and the run completes. -/
theorem C3_amended_chunk_independent (t : String) (L : List String)
    (k : Nat) (chunks : List (List String)) (rem : String)
    (hnodup : (L.map strip).Nodup)
    (hne : ∀ x ∈ L, strip x ≠ "")
    (hchunks : flattenChunks chunks = L.take k)
    (hrem : splitlines rem = L.drop k) :
    (update_label (drainTicks (run_ls_command t none) chunks) []
        (PollStatus.exited rem "")).outputLines = L.map strip ∧
    (update_label (drainTicks (run_ls_command t none) chunks) []
        (PollStatus.exited rem "")).state = RunState.completed := by
  obtain ⟨h1, h2⟩ :=
    update_label_exited_ok (drainTicks (run_ls_command t none) chunks) [] rem
  refine ⟨?_, h2⟩
  have hout : (drainTicks (run_ls_command t none) chunks).outputLines
      = (L.take k).map strip := by
    rw [drainTicks_outputLines, hchunks]
    simp [run_ls_command]
  rw [h1, hout, hrem]
  simp only [List.map_nil, List.append_nil]
  have hsub : ∀ x ∈ L.drop k, strip x ≠ "" := by
    intro x hx
    exact hne x (List.drop_subset k L hx)
  have hnd : ((L.take k).map strip ++ (L.drop k).map strip).Nodup := by
    rw [← List.map_append, List.take_append_drop]
    exact hnodup
  rw [appendFinalLines_of_nodup (L.drop k) ((L.take k).map strip) hsub hnd,
    ← List.map_append, List.take_append_drop]

/-- Witness for C3 (amended) at stdout lines `["a ", "b"]` chunked as one
incremental drain of `"a "` followed by reconciliation of `"b\n"`. -/
theorem C3_amended_chunk_independent_witness :
    ((["a ", "b"].map strip).Nodup ∧ (∀ x ∈ ["a ", "b"], strip x ≠ "") ∧
      flattenChunks [["a "]] = ["a ", "b"].take 1 ∧
      splitlines "b\n" = ["a ", "b"].drop 1) ∧
    ((update_label (drainTicks (run_ls_command "/d" none) [["a "]]) []
        (PollStatus.exited "b\n" "")).outputLines = ["a ", "b"].map strip ∧
      (update_label (drainTicks (run_ls_command "/d" none) [["a "]]) []
        (PollStatus.exited "b\n" "")).state = RunState.completed) :=
  ⟨by decide,
   C3_amended_chunk_independent "/d" ["a ", "b"] 1 [["a "]] "b\n"
     (by decide) (by decide) (by decide) (by decide)⟩

/-- C4: when the process has exited with non-empty stderr, the run
transitions to `Failed`, the published snapshot is exactly
`"[target]\nエラー: <stderr>"` — the accumulated stdout lines are not
shown — and the tick is deregistered. -/
theorem C4_stderr_failed (r : Run) (d : List String)
    (stdout stderr : String) (h : stderr ≠ "") :
    (update_label r d (PollStatus.exited stdout stderr)).state
        = RunState.failed ∧
    (update_label r d (PollStatus.exited stdout stderr)).labelText
        = "[" ++ r.target ++ "]\nエラー: " ++ stderr ∧
    (update_label r d (PollStatus.exited stdout stderr)).scheduled
        = false := by
  simp [update_label, h]

/-- Witness for C4 at stderr `"Permission denied"`. -/
theorem C4_stderr_failed_witness :
    ("Permission denied" ≠ "") ∧
    ((update_label (run_ls_command "/p" none) []
        (PollStatus.exited "" "Permission denied")).state
          = RunState.failed ∧
      (update_label (run_ls_command "/p" none) []
        (PollStatus.exited "" "Permission denied")).labelText
          = "[" ++ (run_ls_command "/p" none).target ++ "]\nエラー: "
              ++ "Permission denied" ∧
      (update_label (run_ls_command "/p" none) []
        (PollStatus.exited "" "Permission denied")).scheduled = false) :=
  ⟨by decide,
   C4_stderr_failed (run_ls_command "/p" none) [] "" "Permission denied"
     (by decide)⟩

/-- C5: once a tick leaves a run in a terminal state (any state other
than `Running`), the interval is deregistered, and any sequence of
further Clock ticks leaves the run — its lines, label text and state —
completely unchanged; in particular there is no transition back to
`Running`. -/
theorem C5_terminal_frozen (r : Run) (d : List String) (s : PollStatus)
    (ticks : List (List String × PollStatus))
    (h : (update_label r d s).state ≠ RunState.running) :
    (update_label r d s).scheduled = false ∧
    ticks.foldl (fun a p => tickIfScheduled a p.1 p.2) (update_label r d s)
      = update_label r d s := by
  have hs := update_label_terminal_unscheduled r d s h
  exact ⟨hs, foldl_tickIfScheduled_of_unscheduled ticks _ hs⟩

/-- Witness for C5: a run failed by stderr `"boom"` is left unchanged by
two further tick attempts. -/
theorem C5_terminal_frozen_witness :
    ((update_label (run_ls_command "/d2" none) ["x\n"]
        (PollStatus.exited "" "boom")).state ≠ RunState.running) ∧
    ((update_label (run_ls_command "/d2" none) ["x\n"]
        (PollStatus.exited "" "boom")).scheduled = false ∧
      [(["y\n"], PollStatus.alive),
        ([], PollStatus.exited "z\n" "")].foldl
          (fun a p => tickIfScheduled a p.1 p.2)
          (update_label (run_ls_command "/d2" none) ["x\n"]
            (PollStatus.exited "" "boom"))
        = update_label (run_ls_command "/d2" none) ["x\n"]
            (PollStatus.exited "" "boom")) :=
  ⟨by decide,
   C5_terminal_frozen (run_ls_command "/d2" none) ["x\n"]
     (PollStatus.exited "" "boom")
     [(["y\n"], PollStatus.alive), ([], PollStatus.exited "z\n" "")]
     (by decide)⟩

/-- C6 (Scenario A): exit 0 with full stdout `"a\nb\nc\n"` and no
incremental drain before exit gives final lines `["a", "b", "c"]`, state
`Completed`, and final snapshot `"[/dir]\na\nb\nc"`. -/
theorem C6_scenario_a :
    (update_label (run_ls_command "/dir" none) []
        (PollStatus.exited "a\nb\nc\n" "")).outputLines
      = ["a", "b", "c"] ∧
    (update_label (run_ls_command "/dir" none) []
        (PollStatus.exited "a\nb\nc\n" "")).state = RunState.completed ∧
    (update_label (run_ls_command "/dir" none) []
        (PollStatus.exited "a\nb\nc\n" "")).labelText
      = "[/dir]\na\nb\nc" := by
  decide

/-- C7 (Scenario D): when the spawn itself raises, the run is `Failed`
immediately with the single error snapshot `"[target]\nエラー: <error>"`,
it never enters `Running`, no repeating tick is scheduled, and a Clock
tick attempt leaves it unchanged. -/
theorem C7_spawn_failure (t err : String) (d : List String)
    (s : PollStatus) :
    (run_ls_command t (some err)).state = RunState.failed ∧
    (run_ls_command t (some err)).labelText
      = "[" ++ t ++ "]\nエラー: " ++ err ∧
    (run_ls_command t (some err)).state ≠ RunState.running ∧
    (run_ls_command t (some err)).scheduled = false ∧
    tickIfScheduled (run_ls_command t (some err)) d s
      = run_ls_command t (some err) :=
  ⟨rfl, rfl, fun h => RunState.noConfusion h, rfl,
   tickIfScheduled_of_unscheduled _ d s rfl⟩

/-- C8 (P1, monotonic growth): a tick taken while the process is alive
appends the drained (stripped) lines at the end of `output_lines`, and
any sequence of such ticks extends the starting `output_lines` by a
suffix — no element is removed or reordered. -/
theorem C8_monotonic_growth (r : Run) (chunks : List (List String)) :
    (∀ d : List String,
        (update_label r d PollStatus.alive).outputLines
          = r.outputLines ++ d.map strip) ∧
    ∃ t : List String,
      (drainTicks r chunks).outputLines = r.outputLines ++ t :=
  ⟨fun d => update_label_alive_outputLines r d,
   ⟨(flattenChunks chunks).map strip, drainTicks_outputLines chunks r⟩⟩

/-- C9: a dropped path that is not a directory while in learning mode
adds exactly one fixed message label and nothing else — no run and no
classification item. -/
theorem C9_learning_nondir_message (entries : List (String × Bool))
    (path : String) :
    main_widget_on_drop Mode.LEARNING false entries path
      = [UIItem.messageLabel "学習モードではディレクトリを指定してください"] :=
  rfl

theorem foldl_classification_items (entries : List (String × Bool)) :
    ∀ (acc : List UIItem) (path : String),
      entries.foldl
          (fun acc e =>
            if e.2 then acc ++ [UIItem.classificationItem (joinPath path e.1)]
            else acc) acc
        = acc ++ (entries.filter (fun e => e.2)).map
            (fun e => UIItem.classificationItem (joinPath path e.1)) := by
  induction entries with
  | nil =>
      intro acc path
      simp
  | cons e es ih =>
      intro acc path
      by_cases h : e.2 = true
      · simp [List.foldl_cons, h, ih, List.filter_cons, List.append_assoc]
      · simp [List.foldl_cons, h, ih, List.filter_cons]

/-- C10: a directory dropped while in classification mode adds exactly
one classification item per regular-file entry of its listing, in
listing order; subdirectory entries are skipped and not recursed into. -/
theorem C10_classification_dir_files (entries : List (String × Bool))
    (path : String) :
    main_widget_on_drop Mode.CLASSIFICATION true entries path
      = (entries.filter (fun e => e.2)).map
          (fun e => UIItem.classificationItem (joinPath path e.1)) := by
  have h0 : main_widget_on_drop Mode.CLASSIFICATION true entries path
      = entries.foldl
          (fun acc e =>
            if e.2 then acc ++ [UIItem.classificationItem (joinPath path e.1)]
            else acc) [] := rfl
  rw [h0, foldl_classification_items entries [] path, List.nil_append]
